import Mathlib

/-!
Shallow embedding of two Python development HTTP servers from this
repository: `spa-server.py` (an SPA file server built on
`SimpleHTTPRequestHandler`, rewriting extension-less missing routes to
`/index.html`) and `debug_server.py` (a debug file server with CORS
headers, colored logging, MIME overrides, and forward port scanning).

Python strings are modelled as `List Char`; the served directory is an
abstract map from URL paths to optional file contents (the effect of
`translate_path` plus `open`); HTTP responses are status, header list and
body. Functions keep the source names.
-/

/-- String literal to the `List Char` representation used throughout. -/
def sL (s : String) : List Char := s.toList

/-- An HTTP response: status code, headers in send order, body bytes. -/
structure HttpResponse where
  status : Nat
  headers : List (String × String)
  body : List Char
deriving DecidableEq

/-- Test whether `pat` occurs at the start of `s` (helper for the Python
substring operator). -/
def leadsWith : List Char → List Char → Bool
  | _, [] => true
  | [], _ :: _ => false
  | c :: cs, p :: ps => c == p && leadsWith cs ps

/-- Python `pat in s` on strings: contiguous substring test. -/
def strContains (s pat : List Char) : Bool :=
  match s with
  | [] => pat.isEmpty
  | _ :: rest => leadsWith s pat || strContains rest pat

/-- Python `s.endswith(suf)`: case-sensitive suffix test. -/
def strEndsWith (s suf : List Char) : Bool := decide (suf <:+ s)

/-- Path component of a request target, `urlparse(self.path).path` for an
origin-form target: the characters before the first `?` (query) or `#`
(fragment). -/
def url_path (raw : List Char) : List Char :=
  raw.takeWhile (fun c => c != '?' && c != '#')

/-- Model of `os.path.basename` on URL paths: the part after the last `/`. -/
def basename (p : List Char) : List Char :=
  (p.reverse.takeWhile (fun c => c != '/')).reverse

/-- Digit run of a Python integer literal after its first digit: further
digits, with single underscores allowed between digits. -/
def py_digits : Nat → List Char → Option Nat
  | acc, [] => some acc
  | _, ['_'] => none
  | acc, '_' :: c :: cs =>
    if c.isDigit then py_digits (acc * 10 + (c.toNat - 48)) cs else none
  | acc, c :: cs =>
    if c.isDigit then py_digits (acc * 10 + (c.toNat - 48)) cs else none

/-- Python `int(s)` on ASCII input: strip surrounding whitespace, optional
sign, then a nonempty digit sequence with single underscores allowed
between digits; anything else raises `ValueError`, modelled as `none`. -/
def pyInt (s : List Char) : Option Int :=
  match ((s.dropWhile Char.isWhitespace).reverse.dropWhile Char.isWhitespace).reverse with
  | '-' :: c :: cs =>
    if c.isDigit then (py_digits (c.toNat - 48) cs).map (fun n => -(n : Int)) else none
  | '+' :: c :: cs =>
    if c.isDigit then (py_digits (c.toNat - 48) cs).map (fun n => (n : Int)) else none
  | c :: cs =>
    if c.isDigit then (py_digits (c.toNat - 48) cs).map (fun n => (n : Int)) else none
  | [] => none

/-- Modelled body of the HTML error page `send_error` produces for 404. -/
def error_404_body : List Char := sL "404 Not Found"

/-- Core of the inherited `SimpleHTTPRequestHandler.do_GET`, parameterised
by the subclass `end_headers` override and its content-type guesser:
resolve the path component of the request target against the served
directory, answer 200 with the file bytes or 404 with the error page.
Headers are flushed through `endh` in both cases. -/
def serve_get (endh : List (String × String) → List (String × String))
    (ctype : List Char → String) (fs : List Char → Option (List Char))
    (raw : List Char) : HttpResponse :=
  match fs (url_path raw) with
  | some b =>
    { status := 200, headers := endh [("Content-Type", ctype (url_path raw))], body := b }
  | none =>
    { status := 404, headers := endh [("Content-Type", "text/html;charset=utf-8")],
      body := error_404_body }

namespace SpaServer

/-- Model of `SPAHandler.end_headers`: the headers already sent by the
handler, followed by the three CORS headers it appends before flushing. -/
def end_headers (hs : List (String × String)) : List (String × String) :=
  hs ++ [("Access-Control-Allow-Origin", "*"),
         ("Access-Control-Allow-Methods", "GET, POST, OPTIONS"),
         ("Access-Control-Allow-Headers", "Content-Type")]

/-- The four routing branches of `SPAHandler.do_GET`, in source order:
root path, static asset (dot in last segment), SPA rewrite (missing file,
no extension), plain pass-through (existing file, no extension). -/
inductive Route
  | root
  | asset
  | rewrite
  | plain
deriving DecidableEq

/-- Routing decision of `SPAHandler.do_GET`: every test is made on the
query-free path component `url_path raw`. -/
def route (fs : List Char → Option (List Char)) (raw : List Char) : Route :=
  if url_path raw = sL "/" then .root
  else if (basename (url_path raw)).contains '.' then .asset
  else if (fs (url_path raw)).isNone then .rewrite
  else .plain

/-- The `self.path` value `SPAHandler.do_GET` hands to the superclass:
the literal `/index.html` on the root and rewrite branches, the original
request target otherwise. -/
def final_path (fs : List Char → Option (List Char)) (raw : List Char) : List Char :=
  match route fs raw with
  | .root => sL "/index.html"
  | .rewrite => sL "/index.html"
  | .asset => raw
  | .plain => raw

/-- Model of `SPAHandler.do_GET`. -/
def do_GET (ctype : List Char → String) (fs : List Char → Option (List Char))
    (raw : List Char) : HttpResponse :=
  serve_get end_headers ctype fs (final_path fs raw)

/-- Model of `port = int(sys.argv[1]) if len(sys.argv) > 1 else 8000` at
module toplevel: a non-numeric argument raises an uncaught `ValueError`,
which the interpreter reports with a traceback on stderr and turns into
process exit status 1. -/
def parse_port (args : List String) : Except (String × Nat) Int :=
  match args with
  | [] => .ok 8000
  | a :: _ =>
    match pyInt (sL a) with
    | some p => .ok p
    | none => .error ("ValueError: invalid literal for int() with base 10: " ++ a, 1)

end SpaServer

namespace DebugServer

/-- Model of `DebugHTTPRequestHandler.end_headers`: the headers already
sent by the handler, followed by the three CORS headers and the
cache-disabling header it appends before flushing. -/
def end_headers (hs : List (String × String)) : List (String × String) :=
  hs ++ [("Access-Control-Allow-Origin", "*"),
         ("Access-Control-Allow-Methods", "GET, POST, PUT, DELETE, OPTIONS"),
         ("Access-Control-Allow-Headers", "Content-Type, Authorization"),
         ("Cache-Control", "no-cache, no-store, must-revalidate")]

/-- Model of `do_OPTIONS`: `send_response(200)` then `end_headers()`, no
body written. -/
def do_OPTIONS : HttpResponse :=
  { status := 200, headers := end_headers [], body := [] }

/-- Model of `guess_type`: explicit overrides by case-sensitive
`endswith`, otherwise the parent class default inference `dflt`. -/
def guess_type (dflt : List Char → String) (path : List Char) : String :=
  if strEndsWith path (sL ".js") then "application/javascript"
  else if strEndsWith path (sL ".css") then "text/css"
  else if strEndsWith path (sL ".json") then "application/json"
  else if strEndsWith path (sL ".svg") then "image/svg+xml"
  else dflt path

/-- Model of the inherited `do_GET` with this handler's `end_headers` and
`guess_type` overrides. -/
def do_GET (dflt : List Char → String) (fs : List Char → Option (List Char))
    (raw : List Char) : HttpResponse :=
  serve_get end_headers (guess_type dflt) fs raw

/-- ANSI color escape chosen in `log_message`: ordered substring tests of
`'200'`, `'404'`, `'304'` against the formatted message. -/
def log_color (message : List Char) : String :=
  if strContains message (sL "200") then "\x1b[92m"
  else if strContains message (sL "404") then "\x1b[91m"
  else if strContains message (sL "304") then "\x1b[93m"
  else "\x1b[94m"

/-- Message that `BaseHTTPRequestHandler.log_request` formats for
`log_message`: `'"%s" %s %s' % (requestline, code, size)`. -/
def request_log_message (requestline code size : String) : List Char :=
  sL ("\"" ++ requestline ++ "\" " ++ code ++ " " ++ size)

/-- The full line `log_message` prints: color escape, timestamp, client
IP, message, reset escape. -/
def log_line (timestamp client_ip : String) (message : List Char) : String :=
  log_color message ++ "[" ++ timestamp ++ "] " ++ client_ip ++ " - " ++
    String.mk message ++ "\x1b[0m"

/-- Model of `find_available_port`: scan `attempts` consecutive ports
starting at `start`, returning the first for which `avail` holds. -/
def find_available_port (avail : Nat → Bool) (start : Nat) : Nat → Option Nat
  | 0 => none
  | n + 1 => if avail start then some start else find_available_port avail (start + 1) n

/-- Port selection in `main`: keep the requested port when free, otherwise
scan 100 ports forward from it; `none` models the fatal `sys.exit(1)`. -/
def resolve_port (avail : Nat → Bool) (port : Nat) : Option Nat :=
  if avail port then some port else find_available_port avail port 100

/-- Parsing of `sys.argv[1]` in `main`: a non-numeric port prints an error
line and exits with status 1; a missing argument defaults to 8080. -/
def parse_port (args : List String) : Except (String × Nat) Int :=
  match args with
  | [] => .ok 8080
  | a :: _ =>
    match pyInt (sL a) with
    | some p => .ok p
    | none => .error ("❌ 错误: 端口号必须是数字", 1)

end DebugServer

/-- Fixture: a served directory containing only `/index.html`. -/
def fs_index_only : List Char → Option (List Char) :=
  fun p => if p = sL "/index.html" then some (sL "<html>app</html>") else none

/-- Fixture: a constant content-type guesser. -/
def ctype_plain : List Char → String := fun _ => "text/plain"

/-- Fixture: port availability where everything from 8081 up is free. -/
def avail_after_8080 : Nat → Bool := fun p => decide (8081 ≤ p)

theorem strEndsWith_iff {s suf : List Char} : strEndsWith s suf = true ↔ suf <:+ s := by
  simp [strEndsWith]

theorem suffix_of_suffix_length_le {a b l : List Char} (h1 : a <:+ l) (h2 : b <:+ l)
    (h : a.length ≤ b.length) : a <:+ b := by
  have e1 := List.suffix_iff_eq_drop.mp h1
  have e2 := List.suffix_iff_eq_drop.mp h2
  have hl2 : b.length ≤ l.length := h2.length_le
  rw [e2, e1]
  have hd : l.length - a.length = (l.length - b.length) + (b.length - a.length) := by omega
  rw [hd, ← List.drop_drop]
  exact List.drop_suffix _ _

theorem ends_excl (path a b : List Char) (ha : strEndsWith path a = true)
    (hb : strEndsWith path b = true) (hab : a.length ≤ b.length)
    (hno : ¬ (a <:+ b)) : False :=
  hno (suffix_of_suffix_length_le (strEndsWith_iff.mp ha) (strEndsWith_iff.mp hb) hab)

theorem find_available_port_eq_none (avail : Nat → Bool) :
    ∀ (n s : Nat), DebugServer.find_available_port avail s n = none ↔
      ∀ i, i < n → avail (s + i) = false := by
  intro n
  induction n with
  | zero => intro s; simp [DebugServer.find_available_port]
  | succ n ih =>
    intro s
    rw [DebugServer.find_available_port]
    cases h : avail s with
    | true =>
      rw [if_pos rfl]
      constructor
      · intro hc; exact absurd hc (by simp)
      · intro hr
        have h0 := hr 0 (by omega)
        rw [Nat.add_zero, h] at h0
        exact absurd h0 (by simp)
    | false =>
      rw [if_neg (by simp [h])]
      rw [ih (s + 1)]
      constructor
      · intro hr i hi
        match i with
        | 0 => simpa using h
        | j + 1 =>
          have := hr j (by omega)
          have harith : s + 1 + j = s + (j + 1) := by omega
          rwa [harith] at this
      · intro hr i hi
        have := hr (i + 1) (by omega)
        have harith : s + (i + 1) = s + 1 + i := by omega
        rwa [harith] at this

theorem find_available_port_eq_some (avail : Nat → Bool) :
    ∀ (n s q : Nat), DebugServer.find_available_port avail s n = some q →
      avail q = true ∧ s ≤ q ∧ q < s + n ∧ ∀ r, s ≤ r → r < q → avail r = false := by
  intro n
  induction n with
  | zero => intro s q hc; simp [DebugServer.find_available_port] at hc
  | succ n ih =>
    intro s q hc
    rw [DebugServer.find_available_port] at hc
    by_cases h : avail s
    · simp only [h, if_true, Option.some.injEq] at hc
      subst hc
      exact ⟨h, Nat.le_refl s, by omega, fun r h1 h2 => absurd (Nat.lt_of_le_of_lt h1 h2) (by omega)⟩
    · simp only [h, if_false] at hc
      obtain ⟨hq, hle, hlt, hmin⟩ := ih (s + 1) q hc
      refine ⟨hq, by omega, by omega, ?_⟩
      intro r h1 h2
      rcases Nat.eq_or_lt_of_le h1 with h1 | h1
      · rw [← h1]; exact Bool.eq_false_iff.mpr h
      · exact hmin r h1 h2

/-- C1: a GET to the SPA server whose path component is not `/`, whose
last segment contains no dot, and whose resolved path does not exist is
rewritten to `/index.html`; when the index document exists, the response
is its bytes with status 200. -/
theorem C1_spa_rewrites_missing_routes_to_index (ctype : List Char → String)
    (fs : List Char → Option (List Char)) (raw : List Char) (idx : List Char)
    (hroot : url_path raw ≠ sL "/")
    (hdot : (basename (url_path raw)).contains '.' = false)
    (hmiss : fs (url_path raw) = none)
    (hidx : fs (sL "/index.html") = some idx) :
    SpaServer.final_path fs raw = sL "/index.html" ∧
    (SpaServer.do_GET ctype fs raw).status = 200 ∧
    (SpaServer.do_GET ctype fs raw).body = idx := by
  have hr : SpaServer.route fs raw = .rewrite := by
    unfold SpaServer.route
    rw [if_neg hroot, if_neg (by rw [hdot]; decide), if_pos (by rw [hmiss]; rfl)]
  have hf : SpaServer.final_path fs raw = sL "/index.html" := by
    simp [SpaServer.final_path, hr]
  have hup : url_path (sL "/index.html") = sL "/index.html" := rfl
  refine ⟨hf, ?_, ?_⟩ <;> simp [SpaServer.do_GET, serve_get, hf, hup, hidx]

theorem C1_witness :
    SpaServer.final_path fs_index_only (sL "/app/settings") = sL "/index.html" ∧
    (SpaServer.do_GET ctype_plain fs_index_only (sL "/app/settings")).status = 200 ∧
    (SpaServer.do_GET ctype_plain fs_index_only (sL "/app/settings")).body =
      sL "<html>app</html>" :=
  C1_spa_rewrites_missing_routes_to_index ctype_plain fs_index_only
    (sL "/app/settings") (sL "<html>app</html>")
    (by decide) (by decide) (by decide) (by decide)

/-- C2: a GET to the SPA server whose last path segment contains a dot
and whose resolved path does not exist is served directly with no rewrite:
status 404 with the error page, never the index document. -/
theorem C2_spa_asset_miss_is_404 (ctype : List Char → String)
    (fs : List Char → Option (List Char)) (raw : List Char)
    (hdot : (basename (url_path raw)).contains '.' = true)
    (hmiss : fs (url_path raw) = none) :
    SpaServer.final_path fs raw = raw ∧
    (SpaServer.do_GET ctype fs raw).status = 404 ∧
    (SpaServer.do_GET ctype fs raw).body = error_404_body := by
  have hroot : url_path raw ≠ sL "/" := by
    intro h
    rw [h] at hdot
    exact absurd hdot (by decide)
  have hr : SpaServer.route fs raw = .asset := by
    unfold SpaServer.route
    rw [if_neg hroot, if_pos hdot]
  have hf : SpaServer.final_path fs raw = raw := by
    simp [SpaServer.final_path, hr]
  refine ⟨hf, ?_, ?_⟩ <;> simp [SpaServer.do_GET, serve_get, hf, hmiss]

theorem C2_witness :
    SpaServer.final_path fs_index_only (sL "/logo.png") = sL "/logo.png" ∧
    (SpaServer.do_GET ctype_plain fs_index_only (sL "/logo.png")).status = 404 ∧
    (SpaServer.do_GET ctype_plain fs_index_only (sL "/logo.png")).body = error_404_body :=
  C2_spa_asset_miss_is_404 ctype_plain fs_index_only (sL "/logo.png")
    (by decide) (by decide)

/-- C3: for every state of the served directory, the SPA server answers a
GET for `/` with exactly the response it gives a GET for `/index.html`;
in particular the body bytes agree. -/
theorem C3_root_equals_index (ctype : List Char → String)
    (fs : List Char → Option (List Char)) :
    SpaServer.do_GET ctype fs (sL "/") = SpaServer.do_GET ctype fs (sL "/index.html") ∧
    (SpaServer.do_GET ctype fs (sL "/")).body =
      (SpaServer.do_GET ctype fs (sL "/index.html")).body :=
  ⟨rfl, rfl⟩

/-- C4: every response of either server flushes its headers through the
handler's `end_headers` override, so it carries
`Access-Control-Allow-Origin: *`; in particular all GET responses of both
servers and the debug server's OPTIONS response do. -/
theorem C4_cors_origin_on_every_response (hs : List (String × String))
    (ctype dflt : List Char → String) (fs : List Char → Option (List Char))
    (raw : List Char) :
    ("Access-Control-Allow-Origin", "*") ∈ SpaServer.end_headers hs ∧
    ("Access-Control-Allow-Origin", "*") ∈ DebugServer.end_headers hs ∧
    ("Access-Control-Allow-Origin", "*") ∈ (SpaServer.do_GET ctype fs raw).headers ∧
    ("Access-Control-Allow-Origin", "*") ∈ (DebugServer.do_GET dflt fs raw).headers ∧
    ("Access-Control-Allow-Origin", "*") ∈ DebugServer.do_OPTIONS.headers := by
  refine ⟨by simp [SpaServer.end_headers], by simp [DebugServer.end_headers], ?_, ?_, by decide⟩
  · unfold SpaServer.do_GET serve_get
    cases fs (url_path (SpaServer.final_path fs raw)) <;> simp [SpaServer.end_headers]
  · unfold DebugServer.do_GET serve_get
    cases fs (url_path raw) <;> simp [DebugServer.end_headers]

/-- C5: when the requested port is occupied, the debug server scans the
100 ports starting at it and binds the first available one; the fatal
exit (`none`) happens exactly when none of those ports is available. -/
theorem C5_port_scan (avail : Nat → Bool) (port : Nat) (hocc : avail port = false) :
    (DebugServer.resolve_port avail port = none ↔
      ∀ i, i < 100 → avail (port + i) = false) ∧
    (∀ q, DebugServer.resolve_port avail port = some q →
      avail q = true ∧ port ≤ q ∧ q < port + 100 ∧
      ∀ r, port ≤ r → r < q → avail r = false) := by
  have hres : DebugServer.resolve_port avail port =
      DebugServer.find_available_port avail port 100 := by
    simp [DebugServer.resolve_port, hocc]
  constructor
  · rw [hres]; exact find_available_port_eq_none avail 100 port
  · intro q hq
    rw [hres] at hq
    exact find_available_port_eq_some avail 100 port q hq

theorem C5_witness :
    avail_after_8080 8080 = false ∧ avail_after_8080 8081 = true :=
  ⟨by decide, ((C5_port_scan avail_after_8080 8080 (by decide)).2 8081 (by decide)).1⟩

/-- C6: a non-numeric first argument makes the debug server print its
usage error and exit with status 1, and makes the SPA server die on the
uncaught `ValueError` the interpreter reports with exit status 1; both
exit codes are nonzero. -/
theorem C6_non_numeric_port_is_fatal (a : String) (rest : List String)
    (h : pyInt (sL a) = none) :
    DebugServer.parse_port (a :: rest) = .error ("❌ 错误: 端口号必须是数字", 1) ∧
    SpaServer.parse_port (a :: rest) =
      .error ("ValueError: invalid literal for int() with base 10: " ++ a, 1) ∧
    (1 : Nat) ≠ 0 := by
  refine ⟨?_, ?_, by decide⟩ <;> simp [DebugServer.parse_port, SpaServer.parse_port, h]

theorem C6_witness :
    DebugServer.parse_port ["30a0"] = .error ("❌ 错误: 端口号必须是数字", 1) ∧
    SpaServer.parse_port ["30a0"] =
      .error ("ValueError: invalid literal for int() with base 10: " ++ "30a0", 1) ∧
    (1 : Nat) ≠ 0 :=
  C6_non_numeric_port_is_fatal "30a0" [] (by decide)

/-- C7 counterexample: the debug server picks the log color by substring
tests on the formatted log line, not by status class. The log line of a
201 response (a 2xx status) contains none of `200`, `404`, `304`, so it
is colored blue, not the green the claim requires for every 2xx. -/
theorem C7_counterexample :
    (200 ≤ 201 ∧ 201 < 300) ∧
    DebugServer.log_color (DebugServer.request_log_message "GET /x HTTP/1.1" "201" "-") =
      "\x1b[94m" ∧
    ("\x1b[94m" : String) ≠ "\x1b[92m" := by
  refine ⟨by decide, by decide, by decide⟩

/-- C7 (amended): the log color is chosen by ordered substring tests on
the formatted message: green when it contains `200`, else red when it
contains `404`, else yellow when it contains `304`, else blue. -/
theorem C7_amended_substring_colors (msg : List Char) :
    (strContains msg (sL "200") = true → DebugServer.log_color msg = "\x1b[92m") ∧
    (strContains msg (sL "200") = false → strContains msg (sL "404") = true →
      DebugServer.log_color msg = "\x1b[91m") ∧
    (strContains msg (sL "200") = false → strContains msg (sL "404") = false →
      strContains msg (sL "304") = true → DebugServer.log_color msg = "\x1b[93m") ∧
    (strContains msg (sL "200") = false → strContains msg (sL "404") = false →
      strContains msg (sL "304") = false → DebugServer.log_color msg = "\x1b[94m") := by
  refine ⟨fun h1 => ?_, fun h1 h2 => ?_, fun h1 h2 h3 => ?_, fun h1 h2 h3 => ?_⟩ <;>
    simp [DebugServer.log_color, *]

theorem C7_witness :
    DebugServer.log_color (DebugServer.request_log_message "GET / HTTP/1.1" "404" "-") =
      "\x1b[91m" :=
  (C7_amended_substring_colors
    (DebugServer.request_log_message "GET / HTTP/1.1" "404" "-")).2.1 (by decide) (by decide)

/-- C8: the debug server's OPTIONS handler responds with status 200, the
CORS headers appended by `end_headers`, and an empty body. -/
theorem C8_options_is_200_cors_empty :
    DebugServer.do_OPTIONS.status = 200 ∧
    ("Access-Control-Allow-Origin", "*") ∈ DebugServer.do_OPTIONS.headers ∧
    ("Access-Control-Allow-Methods", "GET, POST, PUT, DELETE, OPTIONS") ∈
      DebugServer.do_OPTIONS.headers ∧
    ("Access-Control-Allow-Headers", "Content-Type, Authorization") ∈
      DebugServer.do_OPTIONS.headers ∧
    DebugServer.do_OPTIONS.body = [] := by
  refine ⟨rfl, by decide, by decide, by decide, rfl⟩

/-- C9: the SPA routing decision is a function of the path component of
the request target alone (two targets with equal path components route
identically, whatever their query strings), and on the root and rewrite
branches the path handed to the superclass is the literal `/index.html`,
which carries no query string. -/
theorem C9_routing_ignores_query (fs : List Char → Option (List Char))
    (r1 r2 : List Char) (h : url_path r1 = url_path r2) :
    SpaServer.route fs r1 = SpaServer.route fs r2 ∧
    (SpaServer.route fs r1 = .root ∨ SpaServer.route fs r1 = .rewrite →
      SpaServer.final_path fs r1 = sL "/index.html" ∧
      (sL "/index.html").contains '?' = false) := by
  constructor
  · unfold SpaServer.route
    rw [h]
  · intro hr
    rcases hr with hr | hr <;>
      exact ⟨by simp [SpaServer.final_path, hr], by decide⟩

theorem C9_witness :
    SpaServer.route fs_index_only (sL "/app?tab=2") =
      SpaServer.route fs_index_only (sL "/app") :=
  (C9_routing_ignores_query fs_index_only (sL "/app?tab=2") (sL "/app") (by decide)).1

/-- C10: the debug server's MIME overrides are exact case-sensitive
suffix matches for `.js`, `.css`, `.json`, `.svg`; a path ending in the
uppercase `.JS` matches none of them and falls through to the default
inference. -/
theorem C10_mime_overrides_case_sensitive (dflt : List Char → String) (path : List Char) :
    (strEndsWith path (sL ".js") = true →
      DebugServer.guess_type dflt path = "application/javascript") ∧
    (strEndsWith path (sL ".css") = true →
      DebugServer.guess_type dflt path = "text/css") ∧
    (strEndsWith path (sL ".json") = true →
      DebugServer.guess_type dflt path = "application/json") ∧
    (strEndsWith path (sL ".svg") = true →
      DebugServer.guess_type dflt path = "image/svg+xml") ∧
    (strEndsWith path (sL ".JS") = true →
      DebugServer.guess_type dflt path = dflt path) := by
  have excl : ∀ a b : List Char, strEndsWith path a = true →
      ¬ (a <:+ b) → ¬ (b <:+ a) → strEndsWith path b = false := by
    intro a b ha hab hba
    cases hb : strEndsWith path b with
    | false => rfl
    | true =>
      rcases Nat.le_total a.length b.length with hl | hl
      · exact (ends_excl path a b ha hb hl hab).elim
      · exact (ends_excl path b a hb ha hl hba).elim
  refine ⟨fun h => ?_, fun h => ?_, fun h => ?_, fun h => ?_, fun h => ?_⟩
  · simp [DebugServer.guess_type, h]
  · have hjs := excl (sL ".css") (sL ".js") h (by decide) (by decide)
    simp [DebugServer.guess_type, h, hjs]
  · have hjs := excl (sL ".json") (sL ".js") h (by decide) (by decide)
    have hcss := excl (sL ".json") (sL ".css") h (by decide) (by decide)
    simp [DebugServer.guess_type, h, hjs, hcss]
  · have hjs := excl (sL ".svg") (sL ".js") h (by decide) (by decide)
    have hcss := excl (sL ".svg") (sL ".css") h (by decide) (by decide)
    have hjson := excl (sL ".svg") (sL ".json") h (by decide) (by decide)
    simp [DebugServer.guess_type, h, hjs, hcss, hjson]
  · have hjs := excl (sL ".JS") (sL ".js") h (by decide) (by decide)
    have hcss := excl (sL ".JS") (sL ".css") h (by decide) (by decide)
    have hjson := excl (sL ".JS") (sL ".json") h (by decide) (by decide)
    have hsvg := excl (sL ".JS") (sL ".svg") h (by decide) (by decide)
    simp [DebugServer.guess_type, hjs, hcss, hjson, hsvg]

theorem C10_witness :
    DebugServer.guess_type ctype_plain (sL "/a.JS") = ctype_plain (sL "/a.JS") :=
  (C10_mime_overrides_case_sensitive ctype_plain (sL "/a.JS")).2.2.2.2 (by decide)
